import Mathlib

/-!
Verification of the lunatic-log repository's core against its specification.

The definitions below are a shallow embedding of the Rust sources:
  * src/src/level.rs and src/src/level/filter.rs (Level, LevelFilter,
    parsing, comparison operators, serde encoding, the published max level),
  * src/lunatic-tracing-core/src/callsite.rs (the callsite interest cache
    and the Registry's interest rebuild),
  * src/lunatic-tracing-core/src/dispatch.rs (the Dispatch handle, the
    scoped/global default-dispatcher slots and DefaultGuard).
Machine integers are modelled as Nat; atomics as explicitly passed state;
message sends as explicit lists of sent messages so that a no-op path is
the empty list.
-/

/-! ## Level and LevelFilter (src/src/level.rs, src/src/level/filter.rs) -/

/-- The five verbosity levels. The discriminants match the Rust `repr(usize)`
enum `LevelInner` (level.rs lines 217-240): Trace = 0 .. Error = 4. -/
inductive LevelInner
  | Trace
  | Debug
  | Info
  | Warn
  | Error
deriving DecidableEq, Repr, Fintype

/-- The numeric discriminant of a `LevelInner` (`as usize` in the source). -/
def LevelInner.usize : LevelInner → Nat
  | .Trace => 0
  | .Debug => 1
  | .Info => 2
  | .Warn => 3
  | .Error => 4

/-- `Level` wraps `LevelInner` (level.rs line 141). -/
structure Level where
  inner : LevelInner
deriving DecidableEq, Repr, Fintype

def Level.ERROR : Level := ⟨.Error⟩

def Level.WARN : Level := ⟨.Warn⟩

def Level.INFO : Level := ⟨.Info⟩

def Level.DEBUG : Level := ⟨.Debug⟩

def Level.TRACE : Level := ⟨.Trace⟩

/-- `LevelFilter` wraps `Option<Level>` (filter.rs line 33); `None` is OFF. -/
structure LevelFilter where
  inner : Option Level
deriving DecidableEq, Repr, Fintype

def LevelFilter.OFF : LevelFilter := ⟨none⟩

def LevelFilter.ERROR : LevelFilter := ⟨some Level.ERROR⟩

def LevelFilter.WARN : LevelFilter := ⟨some Level.WARN⟩

def LevelFilter.INFO : LevelFilter := ⟨some Level.INFO⟩

def LevelFilter.DEBUG : LevelFilter := ⟨some Level.DEBUG⟩

def LevelFilter.TRACE : LevelFilter := ⟨some Level.TRACE⟩

/-- `filter_as_usize` (filter.rs lines 365-371): the level's discriminant, or
`OFF_USIZE = LevelInner::Error as usize + 1 = 5` for `None`. -/
def filter_as_usize : Option Level → Nat
  | some l => l.inner.usize
  | none => 5

/-- `impl PartialOrd for Level`, `fn lt` (level.rs line 264):
`(other.0 as usize) < (self.0 as usize)`. -/
def Level.lt (self other : Level) : Bool :=
  other.inner.usize < self.inner.usize

/-- `impl PartialOrd for Level`, `fn le` (level.rs line 269). -/
def Level.le (self other : Level) : Bool :=
  other.inner.usize ≤ self.inner.usize

/-- `impl PartialOrd for Level`, `fn gt` (level.rs line 274). -/
def Level.gt (self other : Level) : Bool :=
  other.inner.usize > self.inner.usize

/-- `impl PartialOrd for Level`, `fn ge` (level.rs line 279). -/
def Level.ge (self other : Level) : Bool :=
  other.inner.usize ≥ self.inner.usize

/-- `impl Ord for Level`, `fn cmp` (level.rs lines 284-289):
`(other.0 as usize).cmp(&(self.0 as usize))`. -/
def Level.cmp (self other : Level) : Ordering :=
  compare other.inner.usize self.inner.usize

/-- `impl PartialOrd<LevelFilter> for Level`, `fn lt` (filter.rs line 277). -/
def Level.ltFilter (self : Level) (other : LevelFilter) : Bool :=
  filter_as_usize other.inner < self.inner.usize

/-- `impl PartialOrd<LevelFilter> for Level`, `fn le` (filter.rs line 282). -/
def Level.leFilter (self : Level) (other : LevelFilter) : Bool :=
  filter_as_usize other.inner ≤ self.inner.usize

/-- `impl PartialOrd<LevelFilter> for Level`, `fn gt` (filter.rs line 287). -/
def Level.gtFilter (self : Level) (other : LevelFilter) : Bool :=
  filter_as_usize other.inner > self.inner.usize

/-- `impl PartialOrd<LevelFilter> for Level`, `fn ge` (filter.rs line 292). -/
def Level.geFilter (self : Level) (other : LevelFilter) : Bool :=
  filter_as_usize other.inner ≥ self.inner.usize

/-- `impl PartialEq<LevelFilter> for Level` (filter.rs lines 263-268). -/
def Level.eqFilter (self : Level) (other : LevelFilter) : Bool :=
  self.inner.usize = filter_as_usize other.inner

/-- `impl PartialOrd for LevelFilter`, `fn lt` (filter.rs line 311). -/
def LevelFilter.lt (self other : LevelFilter) : Bool :=
  filter_as_usize other.inner < filter_as_usize self.inner

/-- `impl PartialOrd for LevelFilter`, `fn le` (filter.rs line 316). -/
def LevelFilter.le (self other : LevelFilter) : Bool :=
  filter_as_usize other.inner ≤ filter_as_usize self.inner

/-- `impl PartialOrd for LevelFilter`, `fn gt` (filter.rs line 321). -/
def LevelFilter.gt (self other : LevelFilter) : Bool :=
  filter_as_usize other.inner > filter_as_usize self.inner

/-- `impl PartialOrd for LevelFilter`, `fn ge` (filter.rs line 326). -/
def LevelFilter.ge (self other : LevelFilter) : Bool :=
  filter_as_usize other.inner ≥ filter_as_usize self.inner

/-- `impl Ord for LevelFilter`, `fn cmp` (filter.rs lines 331-336). -/
def LevelFilter.cmp (self other : LevelFilter) : Ordering :=
  compare (filter_as_usize other.inner) (filter_as_usize self.inner)

/-- `impl PartialOrd<Level> for LevelFilter`, `fn lt` (filter.rs line 345). -/
def LevelFilter.ltLevel (self : LevelFilter) (other : Level) : Bool :=
  other.inner.usize < filter_as_usize self.inner

/-- `impl PartialOrd<Level> for LevelFilter`, `fn le` (filter.rs line 350). -/
def LevelFilter.leLevel (self : LevelFilter) (other : Level) : Bool :=
  other.inner.usize ≤ filter_as_usize self.inner

/-- `impl PartialOrd<Level> for LevelFilter`, `fn gt` (filter.rs line 355). -/
def LevelFilter.gtLevel (self : LevelFilter) (other : Level) : Bool :=
  other.inner.usize > filter_as_usize self.inner

/-- `impl PartialOrd<Level> for LevelFilter`, `fn ge` (filter.rs line 360). -/
def LevelFilter.geLevel (self : LevelFilter) (other : Level) : Bool :=
  other.inner.usize ≥ filter_as_usize self.inner

/-- `impl PartialEq<Level> for LevelFilter` (filter.rs lines 297-302). -/
def LevelFilter.eqLevel (self : LevelFilter) (other : Level) : Bool :=
  filter_as_usize self.inner = other.inner.usize

/-- The rank of a `Level` in the single total order claimed by the spec,
ERROR = 1 < WARN < INFO < DEBUG < TRACE = 5 (spec-side yardstick used to
state that the source's comparison operators realize this order). -/
def Level.rank : Level → Nat
  | ⟨.Error⟩ => 1
  | ⟨.Warn⟩ => 2
  | ⟨.Info⟩ => 3
  | ⟨.Debug⟩ => 4
  | ⟨.Trace⟩ => 5

/-- The rank of a `LevelFilter` in the single total order claimed by the
spec: OFF = 0, and each level filter ranks with its level. -/
def LevelFilter.rank : LevelFilter → Nat
  | ⟨none⟩ => 0
  | ⟨some l⟩ => l.rank

/-! ## Parsing (filter.rs lines 224-250) -/

/-- Lowercases one ASCII letter, the effect `eq_ignore_ascii_case` has on a
byte, written out as the A-Z table; every other character is left alone. -/
def asciiLower (c : Char) : Char :=
  match c with
  | 'A' => 'a' | 'B' => 'b' | 'C' => 'c' | 'D' => 'd' | 'E' => 'e' | 'F' => 'f'
  | 'G' => 'g' | 'H' => 'h' | 'I' => 'i' | 'J' => 'j' | 'K' => 'k' | 'L' => 'l'
  | 'M' => 'm' | 'N' => 'n' | 'O' => 'o' | 'P' => 'p' | 'Q' => 'q' | 'R' => 'r'
  | 'S' => 's' | 'T' => 't' | 'U' => 'u' | 'V' => 'v' | 'W' => 'w' | 'X' => 'x'
  | 'Y' => 'y' | 'Z' => 'z'
  | c => c

/-- Rust's `str::eq_ignore_ascii_case`: equality after ASCII lowercasing. -/
def eqIgnoreAsciiCase (a b : String) : Bool :=
  a.data.map asciiLower == b.data.map asciiLower

/-- Rust's `str::parse::<usize>()` on the inputs that matter here: an
optional leading plus sign followed by at least one decimal digit. Overflow
is not modelled (the value is a Nat), which changes nothing below: the
callers accept only values up to 5 and a huge numeral is rejected by them
exactly as Rust's overflow error is. -/
def parseUsize (s : String) : Option Nat :=
  let cs := s.data
  let ds := if cs.head? = some '+' then cs.tail else cs
  if ds.isEmpty then none
  else if ds.all Char.isDigit then
    some (ds.foldl (fun acc c => 10 * acc + (c.toNat - 48)) 0)
  else none

/-- Marker for `ParseLevelFilterError` (filter.rs line 37). -/
structure ParseLevelFilterError where
deriving DecidableEq, Repr

/-- The numeral arm of `LevelFilter::from_str` (filter.rs lines 229-237). -/
def filterOfNum : Nat → Option LevelFilter
  | 0 => some .OFF
  | 1 => some .ERROR
  | 2 => some .WARN
  | 3 => some .INFO
  | 4 => some .DEBUG
  | 5 => some .TRACE
  | _ => none

/-- The name arm of `LevelFilter::from_str` (filter.rs lines 238-247),
matched in source order: the empty string first, then the five level names,
then `off`, each compared with `eq_ignore_ascii_case`. -/
def filterNameBranch (s : String) : Option LevelFilter :=
  if s = "" then some .ERROR
  else if eqIgnoreAsciiCase s "error" then some .ERROR
  else if eqIgnoreAsciiCase s "warn" then some .WARN
  else if eqIgnoreAsciiCase s "info" then some .INFO
  else if eqIgnoreAsciiCase s "debug" then some .DEBUG
  else if eqIgnoreAsciiCase s "trace" then some .TRACE
  else if eqIgnoreAsciiCase s "off" then some .OFF
  else none

/-- `impl FromStr for LevelFilter` (filter.rs lines 224-250):
`from.parse::<usize>().ok().and_then(numeral arm).or_else(name arm)
.ok_or(ParseLevelFilterError(()))`. -/
def LevelFilter.from_str (s : String) : Except ParseLevelFilterError LevelFilter :=
  match ((parseUsize s).bind filterOfNum).orElse (fun _ => filterNameBranch s) with
  | some f => .ok f
  | none => .error ⟨⟩

/-- Marker for `ParseLevelError` (level.rs lines 243-246). -/
structure ParseLevelError where
deriving DecidableEq, Repr

/-- `impl FromStr for Level` (level.rs lines 193-215): numerals 1-5, else
the five names case-insensitively; there is no `off` and no empty-string
arm here. -/
def Level.from_str (s : String) : Except ParseLevelError Level :=
  let num := (parseUsize s).bind fun n =>
    match n with
    | 1 => some Level.ERROR
    | 2 => some Level.WARN
    | 3 => some Level.INFO
    | 4 => some Level.DEBUG
    | 5 => some Level.TRACE
    | _ => none
  let byName : Option Level :=
    if eqIgnoreAsciiCase s "error" then some Level.ERROR
    else if eqIgnoreAsciiCase s "warn" then some Level.WARN
    else if eqIgnoreAsciiCase s "info" then some Level.INFO
    else if eqIgnoreAsciiCase s "debug" then some Level.DEBUG
    else if eqIgnoreAsciiCase s "trace" then some Level.TRACE
    else none
  match num.orElse (fun _ => byName) with
  | some l => .ok l
  | none => .error ⟨⟩

/-! ## Serde encoding of LevelInner (level.rs lines 291-318) -/

/-- Marker for the serde error produced by `invalid_value` in the
`Deserialize` impl (level.rs lines 312-315). -/
structure LevelDeserializeError where
deriving DecidableEq, Repr

/-- `impl Serialize for LevelInner` (level.rs lines 291-298):
`serializer.serialize_u8(*self as u8)`. -/
def LevelInner.serialize (l : LevelInner) : Nat :=
  l.usize

/-- `impl Deserialize for LevelInner` (level.rs lines 300-318): every byte
0 through 4 maps to `LevelInner::Trace`; anything else is an
`invalid_value` error. -/
def LevelInner.deserialize (n : Nat) : Except LevelDeserializeError LevelInner :=
  match n with
  | 0 => .ok .Trace
  | 1 => .ok .Trace
  | 2 => .ok .Trace
  | 3 => .ok .Trace
  | 4 => .ok .Trace
  | _ => .error ⟨⟩

/-! ## The published process-wide max level (filter.rs lines 14, 132-195) -/

/-- `usize::MAX`, the `UNSET_USIZE` sentinel `MAX_LEVEL` starts at
(filter.rs lines 14 and 114). -/
def UNSET_USIZE : Nat := 18446744073709551615

/-- `LevelFilter::set_max` (filter.rs lines 186-195): the usize value
swapped into the `MAX_LEVEL` atomic, `level as usize` for a level and
`OFF_USIZE = 5` for `None`. -/
def LevelFilter.set_max (f : LevelFilter) : Nat :=
  filter_as_usize f.inner

/-- `LevelFilter::current` (filter.rs lines 132-184), with the `MAX_LEVEL`
atomic passed in as `stored` and the global subscriber process modelled as
`subscriber : Option (Option LevelFilter)` (`none` when the name lookup
finds no process, `some reply` for a process whose `MaxLevelHint` request
returns `reply`).  The result is `(returned filter, new stored value,
whether a MaxLevelHint request was sent)`; `Option.none` stands for the
`unreachable!` abort on a corrupted stored value. -/
def LevelFilter.current (stored : Nat) (subscriber : Option (Option LevelFilter)) :
    Option (LevelFilter × Nat × Bool) :=
  if stored = 4 then some (LevelFilter.ERROR, stored, false)
  else if stored = 3 then some (LevelFilter.WARN, stored, false)
  else if stored = 2 then some (LevelFilter.INFO, stored, false)
  else if stored = 1 then some (LevelFilter.DEBUG, stored, false)
  else if stored = 0 then some (LevelFilter.TRACE, stored, false)
  else if stored = 5 then some (LevelFilter.OFF, stored, false)
  else if stored = UNSET_USIZE then
    match subscriber with
    | some reply =>
      let max_level := reply.getD LevelFilter.TRACE
      some (max_level, LevelFilter.set_max max_level, true)
    | none => some (LevelFilter.OFF, stored, false)
  else none

/-! ## Metadata and the span/event payload types

`Metadata` is embedded from src/src/metadata.rs (lines 54-76).  The
tracing-core span and event modules are not part of the provided sources;
the payload types below model them only as far as the dispatch protocol
needs. -/

/-- A lunatic process id; process handles are compared by id. -/
abbrev ProcessId := Nat

/-- `Metadata` (src/src/metadata.rs lines 54-76): name, target, level and
the optional source location. -/
structure Metadata where
  name : String
  target : String
  level : Level
  module_path : Option String
  file : Option String
  line : Option Nat
deriving DecidableEq, Repr

/-- Modelled from the spec: the span module is not under src/; a span id is
the wrapped u64 of `span::Id::from_u64`. -/
structure SpanId where
  toU64 : Nat
deriving DecidableEq, Repr

/-- Modelled from the spec: the span module is not under src/; the
attributes handed to `new_span` are an opaque payload here. -/
structure SpanAttributes where
deriving DecidableEq, Repr

/-- Modelled from the spec: the span module is not under src/; the value
set handed to `record` is an opaque payload here. -/
structure SpanRecord where
deriving DecidableEq, Repr

/-- Modelled from the spec: the event module is not under src/; an event
carries its metadata. -/
structure CoreEvent where
  metadata : Metadata
deriving DecidableEq, Repr

/-- Modelled from the spec: the span module is not under src/.  The spec
describes `SpanCurrent` as the `current_span` reply with an "unknown"
value; the sources name two distinct constructor functions on it,
`span::Current::unknown()` (tests/common/mod.rs lines 19 and 38) and
`span::Current::none()` (dispatch.rs line 664), modelled as the distinct
`unknown` and `none` constructors, beside the known-span case. -/
inductive SpanCurrent
  | current (id : SpanId) (metadata : Metadata)
  | none
  | unknown
deriving DecidableEq, Repr

/-! ## Interest and the callsite cache (callsite.rs) -/

/-- The tri-state `Interest` (spec section 3).  Its Rust definition lives in
collect.rs, which is not under src/. -/
inductive Interest
  | never
  | sometimes
  | always
deriving DecidableEq, Repr, Fintype

/-- Modelled from the spec: `Interest::and` lives in collect.rs, which is
not under src/; the spec's design notes fix the convention
Never∧Never=Never, Always∧Always=Always, anything mixed=Sometimes. -/
def Interest.and : Interest → Interest → Interest
  | .never, .never => .never
  | .always, .always => .always
  | _, _ => .sometimes

/-- `Dispatch` (dispatch.rs lines 205-208): either no collector or a handle
to one collector process. -/
structure Dispatch where
  collector : Option ProcessId
deriving DecidableEq, Repr

/-- `Dispatch::some` (dispatch.rs lines 378-383). -/
def Dispatch.some (collector : ProcessId) : Dispatch :=
  ⟨Option.some collector⟩

/-- `Dispatch::none` (dispatch.rs lines 385-389). -/
def Dispatch.none : Dispatch :=
  ⟨Option.none⟩

/-- `Dispatch::is_set` (dispatch.rs lines 391-393). -/
def Dispatch.is_set (d : Dispatch) : Bool :=
  d.collector.isSome

/-- `Callsite` (callsite.rs lines 100-107): the cached interest scalar (an
`AtomicUsize` in the source, here its contents) plus immutable metadata.
The Rust field is named `interest`; it is named `interestAtomic` here so
that the method `Callsite::interest` can keep its source name. -/
structure Callsite where
  interestAtomic : Nat
  metadata : Metadata
deriving DecidableEq, Repr

/-- `Callsite::new` (callsite.rs lines 114-121): the cache starts at the
sentinel `0xDEADFACED`, outside the three tri-state encodings 0, 1, 2. -/
def Callsite.new (metadata : Metadata) : Callsite :=
  ⟨0xDEADFACED, metadata⟩

/-- `Registration` (callsite.rs lines 248-251, 422-427). -/
structure Registration where
  callsite : Callsite
deriving DecidableEq, Repr

/-- The Registry actor's message kinds (callsite.rs lines 315-340). -/
inductive RegistryMessage
  | RebuildInterest
  | Register (registration : Registration)
  | RegisterDispatch (dispatch : Dispatch)
deriving DecidableEq, Repr

/-- `Callsite::interest` (callsite.rs lines 155-163), paired with the list
of messages it sends to the Registry, which the source never does: the
fall-through arm for a value outside 0, 1, 2 returns `Interest::always()`
(the `self.register()` call is commented out). -/
def Callsite.interest (c : Callsite) : Interest × List RegistryMessage :=
  match c.interestAtomic with
  | 0 => (.never, [])
  | 1 => (.sometimes, [])
  | 2 => (.always, [])
  | _ => (.always, [])

/-- `Callsite::set_interest` (callsite.rs lines 201-208): never stores 0,
always stores 2, anything else stores 1. -/
def Callsite.set_interest (c : Callsite) (interest : Interest) : Callsite :=
  { c with
    interestAtomic :=
      match interest with
      | .never => 0
      | .always => 2
      | .sometimes => 1 }

/-- Decodes a stored interest scalar back to the tri-state it encodes;
`Option.none` for a value outside the three encodings. -/
def interestDecode : Nat → Option Interest
  | 0 => Option.some .never
  | 1 => Option.some .sometimes
  | 2 => Option.some .always
  | _ => Option.none

/-! ## The dispatch protocol (dispatch.rs lines 181-202, 377-667)

Each operation returns its result together with the list of
`(collector process, message)` sends it performs; a `None` dispatch sends
nothing.  Request/reply operations read the collector's reply from a
`CollectorEnv`, the behaviour of the spawned collector processes. -/

/-- The `DispatchMessage` protocol (dispatch.rs lines 181-202). -/
inductive DispatchMessage
  | RegisterCallsite (metadata : Metadata)
  | OnRegisterDispatch (dispatch : Dispatch)
  | MaxLevelHint
  | NewSpan (span : SpanAttributes)
  | CurrentSpan
  | Enabled (metadata : Metadata)
  | Event (event : CoreEvent)
  | Enter (id : SpanId)
  | Exit (id : SpanId)
  | CloneSpan (id : SpanId)
  | TryClose (id : SpanId)
  | Record (span : SpanId) (values : SpanRecord)
  | RecordFollowsFrom (span : SpanId) (follows : SpanId)
deriving DecidableEq, Repr

/-- The replies of the live collector processes to the request/reply
messages of the protocol (the receive loop of `Dispatch::spawn`,
dispatch.rs lines 402-460, keyed by process id). -/
structure CollectorEnv where
  register_callsite : ProcessId → Metadata → Interest
  max_level_hint : ProcessId → Option LevelFilter
  new_span : ProcessId → SpanAttributes → SpanId
  current_span : ProcessId → SpanCurrent
  enabled : ProcessId → Metadata → Bool
  try_close : ProcessId → SpanId → Bool

/-- `Dispatch::register_callsite` (dispatch.rs lines 470-476): request/reply,
`Interest::never()` when there is no collector. -/
def Dispatch.register_callsite (env : CollectorEnv) (d : Dispatch) (metadata : Metadata) :
    Interest × List (ProcessId × DispatchMessage) :=
  match d.collector with
  | Option.some c => (env.register_callsite c metadata, [(c, .RegisterCallsite metadata)])
  | Option.none => (.never, [])

/-- `Dispatch::on_register_dispatch` (dispatch.rs lines 478-483):
fire-and-forget. -/
def Dispatch.on_register_dispatch (d : Dispatch) (collector : Dispatch) :
    List (ProcessId × DispatchMessage) :=
  match d.collector with
  | Option.some c => [(c, .OnRegisterDispatch collector)]
  | Option.none => []

/-- `Dispatch::max_level_hint` (dispatch.rs lines 497-503): request/reply,
`None` when there is no collector. -/
def Dispatch.max_level_hint (env : CollectorEnv) (d : Dispatch) :
    Option LevelFilter × List (ProcessId × DispatchMessage) :=
  match d.collector with
  | Option.some c => (env.max_level_hint c, [(c, .MaxLevelHint)])
  | Option.none => (Option.none, [])

/-- `Dispatch::new_span` (dispatch.rs lines 514-520): request/reply, the
sentinel `Id::from_u64(0xDEAD)` when there is no collector. -/
def Dispatch.new_span (env : CollectorEnv) (d : Dispatch) (span : SpanAttributes) :
    SpanId × List (ProcessId × DispatchMessage) :=
  match d.collector with
  | Option.some c => (env.new_span c span, [(c, .NewSpan span)])
  | Option.none => (⟨0xDEAD⟩, [])

/-- `Dispatch::record` (dispatch.rs lines 529-534): fire-and-forget. -/
def Dispatch.record (d : Dispatch) (span : SpanId) (values : SpanRecord) :
    List (ProcessId × DispatchMessage) :=
  match d.collector with
  | Option.some c => [(c, .Record span values)]
  | Option.none => []

/-- `Dispatch::record_follows_from` (dispatch.rs lines 544-549):
fire-and-forget. -/
def Dispatch.record_follows_from (d : Dispatch) (span follows : SpanId) :
    List (ProcessId × DispatchMessage) :=
  match d.collector with
  | Option.some c => [(c, .RecordFollowsFrom span follows)]
  | Option.none => []

/-- `Dispatch::enabled` (dispatch.rs lines 560-566): request/reply, `false`
when there is no collector. -/
def Dispatch.enabled (env : CollectorEnv) (d : Dispatch) (metadata : Metadata) :
    Bool × List (ProcessId × DispatchMessage) :=
  match d.collector with
  | Option.some c => (env.enabled c metadata, [(c, .Enabled metadata)])
  | Option.none => (false, [])

/-- `Dispatch::event` (dispatch.rs lines 576-581): fire-and-forget. -/
def Dispatch.event (d : Dispatch) (event : CoreEvent) :
    List (ProcessId × DispatchMessage) :=
  match d.collector with
  | Option.some c => [(c, .Event event)]
  | Option.none => []

/-- `Dispatch::enter` (dispatch.rs lines 590-594): fire-and-forget. -/
def Dispatch.enter (d : Dispatch) (span : SpanId) :
    List (ProcessId × DispatchMessage) :=
  match d.collector with
  | Option.some c => [(c, .Enter span)]
  | Option.none => []

/-- `Dispatch::exit` (dispatch.rs lines 603-607): fire-and-forget. -/
def Dispatch.exit (d : Dispatch) (span : SpanId) :
    List (ProcessId × DispatchMessage) :=
  match d.collector with
  | Option.some c => [(c, .Exit span)]
  | Option.none => []

/-- `Dispatch::clone_span` (dispatch.rs lines 624-629): fire-and-forget and
echoes its input id whether or not a collector exists. -/
def Dispatch.clone_span (d : Dispatch) (id : SpanId) :
    SpanId × List (ProcessId × DispatchMessage) :=
  match d.collector with
  | Option.some c => (id, [(c, .CloneSpan id)])
  | Option.none => (id, [])

/-- `Dispatch::try_close` (dispatch.rs lines 646-651): request/reply,
`false` when there is no collector. -/
def Dispatch.try_close (env : CollectorEnv) (d : Dispatch) (id : SpanId) :
    Bool × List (ProcessId × DispatchMessage) :=
  match d.collector with
  | Option.some c => (env.try_close c id, [(c, .TryClose id)])
  | Option.none => (false, [])

/-- `Dispatch::current_span` (dispatch.rs lines 661-666): request/reply,
`span::Current::none()` when there is no collector. -/
def Dispatch.current_span (env : CollectorEnv) (d : Dispatch) :
    SpanCurrent × List (ProcessId × DispatchMessage) :=
  match d.collector with
  | Option.some c => (env.current_span c, [(c, .CurrentSpan)])
  | Option.none => (SpanCurrent.none, [])

/-! ## The Registry (callsite.rs lines 261-418) -/

/-- `rebuild_callsite_interest` (callsite.rs lines 399-418): collect every
dispatcher's `register_callsite` reply, combine them left to right with
`Interest::and` starting from the first, `never` when there are none, and
store the result in the callsite's cache. -/
def combineInterests : List Interest → Interest
  | [] => .never
  | i :: rest => rest.foldl Interest.and i

/-- `rebuild_callsite_interest` (callsite.rs lines 399-418) as the new
callsite value: its cache is overwritten with the combined interest. -/
def rebuild_callsite_interest (env : CollectorEnv) (dispatchers : List Dispatch)
    (callsite : Callsite) : Callsite :=
  callsite.set_interest (combineInterests
    (dispatchers.map fun registrar => (registrar.register_callsite env callsite.metadata).1))

/-- `Registry` state (callsite.rs lines 261-264). -/
structure Registry where
  callsites : List Callsite
  dispatchers : List Dispatch
deriving DecidableEq, Repr

/-- `Registry::rebuild_interest` (callsite.rs lines 267-288): one step of
the `retain` loop, threading the running `max_level` and the retained
dispatchers. -/
def rebuildStep (acc : LevelFilter × List Dispatch) (env : CollectorEnv)
    (registrar : Dispatch) : LevelFilter × List Dispatch :=
  if registrar.is_set then
    let level_hint := ((registrar.max_level_hint env).1).getD LevelFilter.TRACE
    let max_level := if level_hint.gt acc.1 then level_hint else acc.1
    (max_level, acc.2 ++ [registrar])
  else acc

/-- `Registry::rebuild_interest` (callsite.rs lines 267-288): prune unset
dispatchers while folding the running max of their level hints (a missing
hint counts as TRACE), rebuild every callsite's interest against the
retained dispatchers, and finally publish the max via
`LevelFilter::set_max`.  Returns the new state and the published usize. -/
def Registry.rebuild_interest (env : CollectorEnv) (st : Registry) : Registry × Nat :=
  let folded := st.dispatchers.foldl (fun acc d => rebuildStep acc env d) (LevelFilter.OFF, [])
  let dispatchers := folded.2
  let callsites := st.callsites.map (rebuild_callsite_interest env dispatchers)
  ({ callsites := callsites, dispatchers := dispatchers }, LevelFilter.set_max folded.1)

/-- `Registry::register` (callsite.rs lines 290-293): compute the new
callsite's interest against the current dispatchers, then append it. -/
def Registry.register (env : CollectorEnv) (st : Registry) (registration : Registration) :
    Registry :=
  { st with
    callsites :=
      st.callsites ++ [rebuild_callsite_interest env st.dispatchers registration.callsite] }

/-- The Registry's `RegisterDispatch` handler (callsite.rs lines 331-340):
notify the dispatch of its own registration, append it, then rebuild.
Returns the new state, the published usize and the notification sends. -/
def Registry.register_dispatch (env : CollectorEnv) (st : Registry) (dispatch : Dispatch) :
    (Registry × Nat) × List (ProcessId × DispatchMessage) :=
  let sent := dispatch.on_register_dispatch dispatch
  Prod.mk (Registry.rebuild_interest env
    { st with dispatchers := st.dispatchers ++ [dispatch] }) sent

/-! ## The default-dispatcher context (dispatch.rs lines 154-302, 329-375,
697-704)

The per-process `GlobalDispatchProcess` holds a `scoped` slot (a
`RefCell<Option<DispatchProcess>>`) and a write-once `global` slot; both
are threaded explicitly below. -/

/-- `DefaultGuard` (dispatch.rs lines 217-218): holds the prior scoped
dispatch process. -/
structure DefaultGuard where
  prev : Option ProcessId
deriving DecidableEq, Repr

/-- `set_default` (dispatch.rs lines 256-262): swap the scoped slot to the
dispatcher's collector, capturing the prior value in the returned guard.
Returns `(guard, new scoped slot)`. -/
def set_default (dispatcher : Dispatch) (scopedSlot : Option ProcessId) :
    DefaultGuard × Option ProcessId :=
  (⟨scopedSlot⟩, dispatcher.collector)

/-- `impl Drop for DefaultGuard` (dispatch.rs lines 697-704): whatever the
scoped slot currently holds, dropping the guard overwrites it with the
captured prior value. -/
def DefaultGuard.drop (g : DefaultGuard) (_scopedSlot : Option ProcessId) : Option ProcessId :=
  g.prev

/-- `get_default` (dispatch.rs lines 337-349): the scoped slot if present,
else the global slot if present, else the `None` dispatch, as the
`Dispatch` handed to the closure. -/
def get_default (scopedSlot global : Option ProcessId) : Dispatch :=
  match scopedSlot.orElse (fun _ => global) with
  | Option.some c => Dispatch.some c
  | Option.none => Dispatch.none

/-- Marker for `SetGlobalDefaultError` (dispatch.rs lines 305-307). -/
structure SetGlobalDefaultError where
deriving DecidableEq, Repr

/-- `set_global_default` (dispatch.rs lines 280-292): fails when the global
slot already holds a value; otherwise, only when the dispatcher actually
references a collector, registers it under the well-known name and stores
it.  Returns the result and the new global slot. -/
def set_global_default (dispatcher : Dispatch) (global : Option ProcessId) :
    Except SetGlobalDefaultError Unit × Option ProcessId :=
  match global with
  | Option.some _ => (.error ⟨⟩, global)
  | Option.none =>
    match dispatcher.collector with
    | Option.some collector => (.ok (), Option.some collector)
    | Option.none => (.ok (), Option.none)

/-- `has_been_set` (dispatch.rs lines 298-302). -/
def has_been_set (global : Option ProcessId) : Bool :=
  global.isSome

/-- Decidable equality of `Except` values, by cases on the constructors. -/
instance {ε α : Type} [DecidableEq ε] [DecidableEq α] : DecidableEq (Except ε α) := fun a b =>
  match a, b with
  | .ok x, .ok y => if h : x = y then .isTrue (by rw [h]) else .isFalse (by simp [h])
  | .error x, .error y => if h : x = y then .isTrue (by rw [h]) else .isFalse (by simp [h])
  | .ok _, .error _ => .isFalse (by simp)
  | .error _, .ok _ => .isFalse (by simp)

/-- A concrete collector environment for evaluating closed statements: every
collector replies with the defaults a `Collect` implementation may fall back
to. -/
def envDefault : CollectorEnv where
  register_callsite := fun _ _ => .never
  max_level_hint := fun _ => Option.none
  new_span := fun _ _ => ⟨0⟩
  current_span := fun _ => SpanCurrent.unknown
  enabled := fun _ _ => false
  try_close := fun _ _ => false

/-- A concrete metadata value for evaluating closed statements. -/
def metaSample : Metadata :=
  { name := "event src/main.rs:1"
    target := "main"
    level := Level.INFO
    module_path := Option.some "main"
    file := Option.some "src/main.rs"
    line := Option.some 1 }

/-! # Theorems -/

/-- C8: the comparison operators on `Level`, on `LevelFilter`, and between
the two types all realize the one total order
OFF < ERROR < WARN < INFO < DEBUG < TRACE, measured by the `rank`
functions; in particular OFF compares strictly below every `Level`. -/
theorem c8_comparisons_realize_total_order :
    (∀ a b : Level, (a.lt b = true ↔ a.rank < b.rank) ∧
      (a.le b = true ↔ a.rank ≤ b.rank) ∧
      (a.gt b = true ↔ b.rank < a.rank) ∧
      (a.ge b = true ↔ b.rank ≤ a.rank) ∧
      a.cmp b = compare a.rank b.rank) ∧
    (∀ a b : LevelFilter, (a.lt b = true ↔ a.rank < b.rank) ∧
      (a.le b = true ↔ a.rank ≤ b.rank) ∧
      (a.gt b = true ↔ b.rank < a.rank) ∧
      (a.ge b = true ↔ b.rank ≤ a.rank) ∧
      a.cmp b = compare a.rank b.rank) ∧
    (∀ (a : Level) (b : LevelFilter), (a.ltFilter b = true ↔ a.rank < b.rank) ∧
      (a.leFilter b = true ↔ a.rank ≤ b.rank) ∧
      (a.gtFilter b = true ↔ b.rank < a.rank) ∧
      (a.geFilter b = true ↔ b.rank ≤ a.rank) ∧
      (a.eqFilter b = true ↔ a.rank = b.rank)) ∧
    (∀ (a : LevelFilter) (b : Level), (a.ltLevel b = true ↔ a.rank < b.rank) ∧
      (a.leLevel b = true ↔ a.rank ≤ b.rank) ∧
      (a.gtLevel b = true ↔ b.rank < a.rank) ∧
      (a.geLevel b = true ↔ b.rank ≤ a.rank) ∧
      (a.eqLevel b = true ↔ a.rank = b.rank)) ∧
    (∀ l : Level, LevelFilter.OFF.ltLevel l = true) := by
  decide

/-- C10: serializing any `LevelInner` and deserializing the result yields
`Trace`, so the serde round trip is the identity exactly on `Trace`, and
every encoded value 5 or above is rejected. -/
theorem c10_levelinner_serde_collapses_to_trace :
    (∀ l : LevelInner, LevelInner.deserialize l.serialize = .ok .Trace) ∧
    (∀ l : LevelInner, LevelInner.deserialize l.serialize = .ok l ↔ l = .Trace) ∧
    (∀ n : Nat, 5 ≤ n → LevelInner.deserialize n = .error ⟨⟩) := by
  refine ⟨by decide, by decide, ?_⟩
  intro n hn
  match n, hn with
  | (k + 5), _ => rfl

/-- C1: for a cached interest scalar outside the three tri-state encodings
(such as the `0xDEADFACED` a fresh callsite starts with),
`Callsite::interest` returns `Interest::always()` and sends nothing to the
Registry, instead of registering and blocking for the computed interest as
the spec and the method's own documentation require. -/
theorem c1_sentinel_interest_guesses_always_without_registering :
    (∀ m : Metadata, (Callsite.new m).interestAtomic = 0xDEADFACED) ∧
    (∀ m : Metadata, (Callsite.new m).interest = (Interest.always, [])) ∧
    (∀ (n : Nat) (m : Metadata), interestDecode n = Option.none →
      (Callsite.mk n m).interest = (Interest.always, [])) := by
  refine ⟨fun m => rfl, fun m => rfl, ?_⟩
  intro n m h
  match n, h with
  | (k + 3), _ => rfl

/-- C2 counterexample: with the none dispatch and an empty global slot,
`set_global_default` succeeds, leaves the slot empty so `has_been_set` is
still false, and an immediately following call succeeds again — the claim
says a successful call always populates the slot and can happen at most
once. -/
theorem c2_counterexample_none_dispatch_succeeds_twice :
    (set_global_default Dispatch.none Option.none).1 = .ok () ∧
    (set_global_default Dispatch.none Option.none).2 = Option.none ∧
    (set_global_default Dispatch.none
      (set_global_default Dispatch.none Option.none).2).1 = .ok () ∧
    has_been_set (set_global_default Dispatch.none Option.none).2 = false :=
  ⟨rfl, rfl, rfl, rfl⟩

/-- C2 (amended): `set_global_default` fails with `SetGlobalDefaultError`
exactly when the global slot already holds a value.  A successful call with
a dispatcher that references a collector stores it, after which
`has_been_set` is true and every later call fails; a successful call with
the none dispatch leaves the slot empty, so `has_been_set` stays false and
a later call may succeed again. -/
theorem c2_set_global_default_amended :
    (∀ (d : Dispatch) (c : ProcessId),
      set_global_default d (Option.some c) = (.error ⟨⟩, Option.some c)) ∧
    (∀ (d : Dispatch) (c : ProcessId), d.collector = Option.some c →
      set_global_default d Option.none = (.ok (), Option.some c) ∧
      has_been_set (set_global_default d Option.none).2 = true ∧
      (∀ d2 : Dispatch, (set_global_default d2 (set_global_default d Option.none).2).1
        = .error ⟨⟩)) ∧
    (∀ d : Dispatch, d.collector = Option.none →
      set_global_default d Option.none = (.ok (), Option.none) ∧
      has_been_set (set_global_default d Option.none).2 = false) := by
  refine ⟨fun d c => rfl, ?_, ?_⟩
  · intro d c h
    refine ⟨?_, ?_, ?_⟩ <;> simp [set_global_default, has_been_set, h]
  · intro d h
    refine ⟨?_, ?_⟩ <;> simp [set_global_default, has_been_set, h]

/-- C2 witness: instantiates the amended statement at a dispatch that
references collector process 7 and at the none dispatch. -/
theorem c2_set_global_default_amended_witness :
    set_global_default (Dispatch.some 7) Option.none = (.ok (), Option.some 7) ∧
    set_global_default Dispatch.none Option.none = (.ok (), Option.none) :=
  ⟨(c2_set_global_default_amended.2.1 (Dispatch.some 7) 7 rfl).1,
   (c2_set_global_default_amended.2.2 Dispatch.none rfl).1⟩

/-- C6 counterexample: `Dispatch::current_span` with no collector returns
the value built by `span::Current::none()`, which is distinct from the
"unknown" current-span value the claim names. -/
theorem c6_counterexample_current_span_default_is_none_not_unknown :
    Dispatch.none.current_span envDefault = (SpanCurrent.none, []) ∧
    SpanCurrent.none ≠ SpanCurrent.unknown :=
  ⟨rfl, by decide⟩

/-- C6 (amended): a `Dispatch` whose collector is `None` returns every
table default without sending any message: `register_callsite` gives
`Never`, `max_level_hint` gives `None`, `enabled` and `try_close` give
false, `new_span` gives the sentinel id `0xDEAD`, `clone_span` echoes its
input, `current_span` gives the "none" current-span value, and
`event`, `enter`, `exit`, `record`, `record_follows_from` and
`on_register_dispatch` send nothing; with neither slot set, `get_default`
resolves to this none dispatch. -/
theorem c6_none_dispatch_defaults :
    ∀ (env : CollectorEnv) (m : Metadata) (attrs : SpanAttributes) (v : SpanRecord)
      (e : CoreEvent) (i j : SpanId) (d2 : Dispatch),
      Dispatch.none.register_callsite env m = (Interest.never, []) ∧
      Dispatch.none.max_level_hint env = (Option.none, []) ∧
      Dispatch.none.enabled env m = (false, []) ∧
      Dispatch.none.try_close env i = (false, []) ∧
      Dispatch.none.new_span env attrs = (⟨0xDEAD⟩, []) ∧
      Dispatch.none.clone_span i = (i, []) ∧
      Dispatch.none.current_span env = (SpanCurrent.none, []) ∧
      Dispatch.none.event e = [] ∧
      Dispatch.none.enter i = [] ∧
      Dispatch.none.exit i = [] ∧
      Dispatch.none.record i v = [] ∧
      Dispatch.none.record_follows_from i j = [] ∧
      Dispatch.none.on_register_dispatch d2 = [] ∧
      get_default Option.none Option.none = Dispatch.none := by
  intro env m attrs v e i j d2
  exact ⟨rfl, rfl, rfl, rfl, rfl, rfl, rfl, rfl, rfl, rfl, rfl, rfl, rfl, rfl⟩

/-- C7: `set_default` swaps the scoped slot to the dispatcher's collector
and captures the prior value in the guard; dropping the guard writes the
captured value back whatever the slot holds at that moment (so the
restoration also covers an abnormal exit), and nested guards see the inner
dispatcher current inside the inner scope, the outer one after the inner
guard is released, and the original value after the outer one is. -/
theorem c7_scoped_default_swap_and_restore :
    ∀ (d1 d2 : Dispatch) (s0 g : Option ProcessId),
      (set_default d1 s0).2 = d1.collector ∧
      (set_default d1 s0).1.prev = s0 ∧
      (∀ sAny, ((set_default d1 s0).1).drop sAny = s0) ∧
      (set_default d2 (set_default d1 s0).2).2 = d2.collector ∧
      (∀ sAny, ((set_default d2 (set_default d1 s0).2).1).drop sAny = d1.collector) ∧
      (∀ c2, d2.collector = Option.some c2 →
        get_default (set_default d2 (set_default d1 s0).2).2 g = Dispatch.some c2) ∧
      (∀ c1, d1.collector = Option.some c1 →
        get_default (((set_default d2 (set_default d1 s0).2).1).drop
          (set_default d2 (set_default d1 s0).2).2) g = Dispatch.some c1) ∧
      ((set_default d1 s0).1.drop
        (((set_default d2 (set_default d1 s0).2).1).drop
          (set_default d2 (set_default d1 s0).2).2) = s0) := by
  intro d1 d2 s0 g
  refine ⟨rfl, rfl, fun sAny => rfl, rfl, fun sAny => rfl, ?_, ?_, rfl⟩
  · intro c2 h
    simp [get_default, set_default, h]
  · intro c1 h
    simp [get_default, set_default, DefaultGuard.drop, h]

/-- C5 counterexample: with the published atomic still at the unset
sentinel and no global collector registered, `LevelFilter::current()`
returns OFF but does not publish it — the stored value stays at the unset
sentinel, which is not `set_max OFF` — so the next call repeats the
resolution instead of being a plain read of a published value. -/
theorem c5_counterexample_off_not_published :
    LevelFilter.current UNSET_USIZE Option.none
      = Option.some (LevelFilter.OFF, UNSET_USIZE, false) ∧
    UNSET_USIZE ≠ LevelFilter.set_max LevelFilter.OFF :=
  ⟨rfl, by decide⟩

/-- C5 (amended): while the published atomic holds the unset sentinel, a
call with a reachable global collector requests its `max_level_hint`,
publishes the reply via `set_max` (TRACE when the collector gives no hint)
and returns it; a call with no reachable collector returns OFF without
publishing, leaving the sentinel in place; and any call that finds a
published value returns it directly with no collector request. -/
theorem c5_current_first_call_and_reads :
    (∀ (f : LevelFilter) (sub : Option (Option LevelFilter)),
      LevelFilter.current (LevelFilter.set_max f) sub
        = Option.some (f, LevelFilter.set_max f, false)) ∧
    (∀ reply : Option LevelFilter,
      LevelFilter.current UNSET_USIZE (Option.some reply)
        = Option.some (reply.getD LevelFilter.TRACE,
            LevelFilter.set_max (reply.getD LevelFilter.TRACE), true)) ∧
    LevelFilter.current UNSET_USIZE Option.none
      = Option.some (LevelFilter.OFF, UNSET_USIZE, false) := by
  refine ⟨?_, ?_, rfl⟩
  · intro f sub
    rcases f with ⟨inner⟩
    rcases inner with _ | lvl
    · rfl
    · rcases lvl with ⟨li⟩
      cases li <;> rfl
  · intro reply
    rcases reply with _ | f <;> rfl

/-- Folding `Interest::and` from an accumulator yields never exactly when
everything is never, always exactly when everything is always, and
sometimes otherwise. -/
theorem foldl_interest_and_eq (l : List Interest) (acc : Interest) :
    l.foldl Interest.and acc =
      if acc = .never ∧ ∀ i ∈ l, i = .never then .never
      else if acc = .always ∧ ∀ i ∈ l, i = .always then .always
      else .sometimes := by
  induction l generalizing acc with
  | nil =>
    cases acc <;> simp
  | cons x xs ih =>
    rw [List.foldl_cons, ih]
    cases acc <;> cases x <;> simp [Interest.and] <;> split <;> simp_all

/-- The closed form of `combineInterests`: never on the empty list, never
and always exactly for unanimous lists, sometimes otherwise. -/
theorem combineInterests_eq (l : List Interest) :
    combineInterests l =
      if l = [] then .never
      else if ∀ i ∈ l, i = .never then .never
      else if ∀ i ∈ l, i = .always then .always
      else .sometimes := by
  cases l with
  | nil => rfl
  | cons x xs =>
    rw [show combineInterests (x :: xs) = xs.foldl Interest.and x from rfl,
      foldl_interest_and_eq]
    simp only [List.forall_mem_cons, reduceCtorEq, if_false]

/-- `combineInterests` is invariant under permutations of its input. -/
theorem combineInterests_perm (l₁ l₂ : List Interest) (h : l₁.Perm l₂) :
    combineInterests l₁ = combineInterests l₂ := by
  rw [combineInterests_eq, combineInterests_eq]
  refine if_congr ?_ rfl (if_congr ?_ rfl (if_congr ?_ rfl rfl))
  · constructor
    · intro he
      exact (he ▸ h).symm.eq_nil
    · intro he
      exact (he ▸ h).eq_nil
  · exact ⟨fun ha i hi => ha i (h.mem_iff.mpr hi), fun ha i hi => ha i (h.mem_iff.mp hi)⟩
  · exact ⟨fun ha i hi => ha i (h.mem_iff.mpr hi), fun ha i hi => ha i (h.mem_iff.mp hi)⟩

/-- C3: the interest a Registry rebuild caches for a callsite is the
`Interest::and`-combination of the collectors' replies; that combination is
never iff every reply is never, always iff every reply is always, sometimes
otherwise, never on the empty collector list, and — `and` being associative
and commutative — independent of the order of the dispatcher list. -/
theorem c3_combined_interest_characterization :
    (∀ (env : CollectorEnv) (dispatchers : List Dispatch) (c : Callsite),
      interestDecode (rebuild_callsite_interest env dispatchers c).interestAtomic
        = Option.some (combineInterests
            (dispatchers.map fun d => (d.register_callsite env c.metadata).1))) ∧
    combineInterests [] = .never ∧
    (∀ l : List Interest, l ≠ [] →
      (combineInterests l = .never ↔ ∀ i ∈ l, i = .never)) ∧
    (∀ l : List Interest, l ≠ [] →
      (combineInterests l = .always ↔ ∀ i ∈ l, i = .always)) ∧
    (∀ l : List Interest, l ≠ [] → ¬(∀ i ∈ l, i = .never) → ¬(∀ i ∈ l, i = .always) →
      combineInterests l = .sometimes) ∧
    (∀ a b c : Interest, (a.and b).and c = a.and (b.and c)) ∧
    (∀ a b : Interest, a.and b = b.and a) ∧
    (∀ l₁ l₂ : List Interest, l₁.Perm l₂ → combineInterests l₁ = combineInterests l₂) ∧
    (∀ (env : CollectorEnv) (d₁ d₂ : List Dispatch) (c : Callsite), d₁.Perm d₂ →
      (rebuild_callsite_interest env d₁ c).interestAtomic
        = (rebuild_callsite_interest env d₂ c).interestAtomic) := by
  refine ⟨?_, rfl, ?_, ?_, ?_, by decide, by decide, combineInterests_perm, ?_⟩
  · intro env dispatchers c
    rcases hv : combineInterests
        (dispatchers.map fun d => (d.register_callsite env c.metadata).1) with _ | _ | _ <;>
      simp [rebuild_callsite_interest, Callsite.set_interest, interestDecode, hv]
  · intro l hl
    rw [combineInterests_eq]
    split_ifs with h0 h1 h2
    · exact absurd h0 hl
    · exact iff_of_true rfl h1
    · exact iff_of_false (by decide) h1
    · exact iff_of_false (by decide) h1
  · intro l hl
    rw [combineInterests_eq]
    split_ifs with h0 h1 h2
    · exact absurd h0 hl
    · refine iff_of_false (by decide) fun h => ?_
      rcases List.exists_mem_of_ne_nil l hl with ⟨i, hi⟩
      have hn := h1 i hi
      have ha := h i hi
      rw [hn] at ha
      exact absurd ha (by decide)
    · exact iff_of_true rfl h2
    · exact iff_of_false (by decide) h2
  · intro l hl h1 h2
    rw [combineInterests_eq]
    simp [hl, h1, h2]
  · intro env d₁ d₂ c h
    have : combineInterests (d₁.map fun d => (d.register_callsite env c.metadata).1)
        = combineInterests (d₂.map fun d => (d.register_callsite env c.metadata).1) :=
      combineInterests_perm _ _ (h.map _)
    simp [rebuild_callsite_interest, this]

/-- C3 witness: the combination rules evaluated on concrete collector
lists: two never-collectors combine to never, two always-collectors to
always, a mixed pair to sometimes, and a two-element list combines the same
in both orders. -/
theorem c3_combined_interest_characterization_witness :
    (combineInterests [.never, .never] = .never) ∧
    (combineInterests [.always, .always] = .always) ∧
    (combineInterests [.always, .never] = .sometimes) ∧
    combineInterests [.always, .never] = combineInterests [.never, .always] :=
  ⟨(c3_combined_interest_characterization.2.2.1 [.never, .never] (by decide)).mpr
      (by decide),
   (c3_combined_interest_characterization.2.2.2.1 [.always, .always] (by decide)).mpr
      (by decide),
   c3_combined_interest_characterization.2.2.2.2.1 [.always, .never] (by decide)
      (by decide) (by decide),
   c3_combined_interest_characterization.2.2.2.2.2.2.2.1 [.always, .never] [.never, .always]
      (by decide)⟩

/-- The source's `level_hint > max_level` test agrees with the rank order. -/
theorem levelFilter_gt_rank : ∀ a b : LevelFilter, a.gt b = true ↔ b.rank < a.rank := by
  decide

/-- Ranks run from 0 (OFF) to 5 (TRACE). -/
theorem levelFilter_rank_le_five : ∀ f : LevelFilter, f.rank ≤ 5 := by
  decide

/-- OFF is the only filter of rank 0. -/
theorem levelFilter_rank_eq_zero : ∀ f : LevelFilter, f.rank = 0 ↔ f = LevelFilter.OFF := by
  decide

/-- TRACE is the only filter of rank 5. -/
theorem levelFilter_rank_eq_five : ∀ f : LevelFilter, f.rank = 5 ↔ f = LevelFilter.TRACE := by
  decide

/-- `set_max` stores distinct usizes for distinct filters. -/
theorem set_max_inj : ∀ f g : LevelFilter,
    LevelFilter.set_max f = LevelFilter.set_max g → f = g := by
  decide

/-- The `retain` loop of `Registry::rebuild_interest`: its running max is a
fold of the best-so-far comparison over the retained dispatchers' hints,
and it keeps exactly the dispatchers whose `is_set` holds, in order. -/
theorem rebuild_foldl_eq (env : CollectorEnv) (ds : List Dispatch) (m : LevelFilter)
    (acc : List Dispatch) :
    ds.foldl (fun a d => rebuildStep a env d) (m, acc)
      = (((ds.filter Dispatch.is_set).map
            (fun d => ((d.max_level_hint env).1).getD LevelFilter.TRACE)).foldl
            (fun a x => if x.gt a then x else a) m,
          acc ++ ds.filter Dispatch.is_set) := by
  induction ds generalizing m acc with
  | nil => simp
  | cons d ds ih =>
    rw [List.foldl_cons]
    by_cases hd : d.is_set
    · rw [show rebuildStep (m, acc) env d
          = (if (((d.max_level_hint env).1).getD LevelFilter.TRACE).gt m
              then ((d.max_level_hint env).1).getD LevelFilter.TRACE else m,
             acc ++ [d]) from by simp [rebuildStep, hd]]
      rw [ih]
      simp [List.filter_cons, hd]
    · rw [show rebuildStep (m, acc) env d = (m, acc) from by simp [rebuildStep, hd]]
      rw [ih]
      simp [List.filter_cons, hd]

/-- Folding the best-so-far comparison computes a maximum for the rank
order: the result dominates the seed and every list element, and is the
seed or one of the elements. -/
theorem foldl_hint_max (hs : List LevelFilter) (m : LevelFilter) :
    m.rank ≤ (hs.foldl (fun a x => if x.gt a then x else a) m).rank ∧
    (∀ h ∈ hs, h.rank ≤ (hs.foldl (fun a x => if x.gt a then x else a) m).rank) ∧
    ((hs.foldl (fun a x => if x.gt a then x else a) m) = m ∨
      (hs.foldl (fun a x => if x.gt a then x else a) m) ∈ hs) := by
  induction hs generalizing m with
  | nil => simp
  | cons h hs ih =>
    rw [List.foldl_cons]
    obtain ⟨ih1, ih2, ih3⟩ := ih (if h.gt m then h else m)
    have hm : m.rank ≤ (if h.gt m then h else m).rank := by
      by_cases hgt : h.gt m = true
      · rw [if_pos hgt]
        exact le_of_lt ((levelFilter_gt_rank h m).mp hgt)
      · rw [if_neg hgt]
    have hh : h.rank ≤ (if h.gt m then h else m).rank := by
      by_cases hgt : h.gt m = true
      · rw [if_pos hgt]
      · rw [if_neg hgt]
        exact Nat.le_of_not_lt fun hlt => hgt ((levelFilter_gt_rank h m).mpr hlt)
    refine ⟨le_trans hm ih1, ?_, ?_⟩
    · intro x hx
      rcases List.mem_cons.mp hx with rfl | hx
      · exact le_trans hh ih1
      · exact ih2 x hx
    · by_cases hgt : h.gt m = true
      · rw [if_pos hgt] at ih3 ⊢
        rcases ih3 with he | he
        · rw [he]
          exact Or.inr (List.mem_cons_self h hs)
        · exact Or.inr (List.mem_cons_of_mem h he)
      · rw [if_neg hgt] at ih3 ⊢
        rcases ih3 with he | he
        · exact Or.inl he
        · exact Or.inr (List.mem_cons_of_mem h he)

/-- C4: after a Registry rebuild, the retained dispatchers are exactly the
`is_set` ones and the published usize is `set_max m` for the filter `m`
that is the rank-maximum of the retained dispatchers' hints (a dispatcher
with no hint contributing TRACE): `m` dominates every hint, is OFF when no
dispatcher remains, is one of the hints otherwise, and is TRACE whenever
some retained dispatcher declines to give a hint; `set_max` is injective,
so the published value determines `m`. -/
theorem c4_rebuild_publishes_max_hint :
    ∀ (env : CollectorEnv) (st : Registry),
      (st.rebuild_interest env).1.dispatchers = st.dispatchers.filter Dispatch.is_set ∧
      (∃ m : LevelFilter,
        (st.rebuild_interest env).2 = LevelFilter.set_max m ∧
        (∀ d ∈ st.dispatchers.filter Dispatch.is_set,
          (((d.max_level_hint env).1).getD LevelFilter.TRACE).rank ≤ m.rank) ∧
        (st.dispatchers.filter Dispatch.is_set = [] → m = LevelFilter.OFF) ∧
        (st.dispatchers.filter Dispatch.is_set ≠ [] →
          m ∈ (st.dispatchers.filter Dispatch.is_set).map
            (fun d => ((d.max_level_hint env).1).getD LevelFilter.TRACE)) ∧
        ((∃ d ∈ st.dispatchers.filter Dispatch.is_set,
            (d.max_level_hint env).1 = Option.none) →
          m = LevelFilter.TRACE)) ∧
      (∀ f g : LevelFilter, LevelFilter.set_max f = LevelFilter.set_max g → f = g) := by
  intro env st
  have hfold := rebuild_foldl_eq env st.dispatchers LevelFilter.OFF []
  refine ⟨?_, ?_, set_max_inj⟩
  · simp only [Registry.rebuild_interest, hfold, List.nil_append]
  · set active := st.dispatchers.filter Dispatch.is_set with hactive
    set hints := active.map (fun d => ((d.max_level_hint env).1).getD LevelFilter.TRACE)
      with hhints
    refine ⟨hints.foldl (fun a x => if x.gt a then x else a) LevelFilter.OFF, ?_, ?_, ?_, ?_, ?_⟩
    · simp only [Registry.rebuild_interest, hfold, ← hactive, ← hhints]
    · intro d hd
      exact (foldl_hint_max hints LevelFilter.OFF).2.1 _
        (List.mem_map_of_mem _ hd)
    · intro hemp
      rw [hhints, hemp]
      rfl
    · intro hne
      rcases (foldl_hint_max hints LevelFilter.OFF).2.2 with he | he
      · rcases List.exists_mem_of_ne_nil active hne with ⟨d, hd⟩
        have hin : (((d.max_level_hint env).1).getD LevelFilter.TRACE) ∈ hints :=
          List.mem_map_of_mem _ hd
        have hle := (foldl_hint_max hints LevelFilter.OFF).2.1 _ hin
        rw [he] at hle ⊢
        have : (((d.max_level_hint env).1).getD LevelFilter.TRACE).rank = 0 :=
          Nat.le_zero.mp hle
        rw [(levelFilter_rank_eq_zero _).mp this] at hin
        exact hin
      · exact he
    · intro ⟨d, hd, hnone⟩
      have hin : LevelFilter.TRACE ∈ hints := by
        have : (((d.max_level_hint env).1).getD LevelFilter.TRACE) ∈ hints :=
          List.mem_map_of_mem _ hd
        rwa [hnone] at this
      have h5 := (foldl_hint_max hints LevelFilter.OFF).2.1 _ hin
      have hle5 := levelFilter_rank_le_five
        (hints.foldl (fun a x => if x.gt a then x else a) LevelFilter.OFF)
      exact (levelFilter_rank_eq_five _).mp (le_antisymm hle5 h5)

/-- `asciiLower` maps digits to digits and non-digits to non-digits. -/
theorem asciiLower_isDigit (c : Char) : (asciiLower c).isDigit = c.isDigit := by
  unfold asciiLower
  split <;> first | rfl | (subst_vars; decide)

/-- A string whose ASCII-lowercased characters start with a non-digit other
than the plus sign is rejected by `parseUsize`. -/
theorem parseUsize_none_of_head (s : String) (c : Char) (rest : List Char)
    (hmap : s.data.map asciiLower = c :: rest)
    (hd : c.isDigit = false) (hp : c ≠ '+') : parseUsize s = Option.none := by
  obtain ⟨c0, cs0, hs, hc0, -⟩ := List.map_eq_cons_iff.mp hmap
  have hd0 : c0.isDigit = false := by
    rw [← asciiLower_isDigit, hc0]
    exact hd
  have hp0 : c0 ≠ '+' := by
    intro h
    rw [h, show asciiLower '+' = '+' from by decide] at hc0
    exact hp hc0.symm
  simp [parseUsize, hs, hp0, hd0]

/-- When the numeral arm rejects, `from_str` is decided by the name arm. -/
theorem from_str_of_parse_none (s : String) (hnum : parseUsize s = Option.none) :
    LevelFilter.from_str s
      = match filterNameBranch s with
        | Option.some f => Except.ok f
        | Option.none => Except.error ⟨⟩ := by
  unfold LevelFilter.from_str
  rw [hnum]
  rfl

/-- The name arm only looks at the ASCII-lowercased characters (and
emptiness, which they determine). -/
theorem filterNameBranch_congr (s t : String) (hs : ¬s = "") (ht : ¬t = "")
    (hmap : s.data.map asciiLower = t.data.map asciiLower) :
    filterNameBranch s = filterNameBranch t := by
  unfold filterNameBranch
  rw [if_neg hs, if_neg ht]
  simp only [eqIgnoreAsciiCase, hmap]

/-- A string that lowercases like the nonempty string `t`, whose lowered
form starts with a non-digit other than the plus sign, parses exactly as
`t`'s name-arm lookup. -/
theorem from_str_of_name (s t : String) (c : Char) (rest : List Char)
    (h : eqIgnoreAsciiCase s t = true)
    (ht : t.data.map asciiLower = c :: rest)
    (hd : c.isDigit = false) (hp : c ≠ '+') (htne : ¬t = "") :
    LevelFilter.from_str s
      = match filterNameBranch t with
        | Option.some f => Except.ok f
        | Option.none => Except.error ⟨⟩ := by
  have hmap : s.data.map asciiLower = t.data.map asciiLower := by
    simpa [eqIgnoreAsciiCase] using h
  have hnum : parseUsize s = Option.none :=
    parseUsize_none_of_head s c rest (hmap.trans ht) hd hp
  have hne : ¬s = "" := by
    intro he
    subst he
    have h1 := congrArg List.length (hmap.trans ht)
    rw [List.length_map, show ("" : String).data.length = 0 from by decide,
      List.length_cons] at h1
    exact absurd h1.symm (Nat.succ_ne_zero _)
  rw [from_str_of_parse_none s hnum, filterNameBranch_congr s t hne htne hmap]

/-- The numeral arm accepts exactly the values 0 through 5. -/
theorem filterOfNum_eq_none (n : Nat) : filterOfNum n = Option.none ↔ ¬n ≤ 5 := by
  match n with
  | 0 | 1 | 2 | 3 | 4 | 5 => simp [filterOfNum]
  | (k + 6) =>
    simp only [filterOfNum, true_iff]
    omega

/-- The composed numeral arm rejects exactly when no value up to 5 was
parsed. -/
theorem bind_filterOfNum_eq_none (s : String) :
    (parseUsize s).bind filterOfNum = Option.none ↔
      ¬∃ n, parseUsize s = Option.some n ∧ n ≤ 5 := by
  rcases h : parseUsize s with _ | n
  · simp
  · simp [filterOfNum_eq_none]

/-- The name arm rejects exactly the strings that are neither empty nor a
case-insensitive match of one of the six names. -/
theorem filterNameBranch_eq_none (s : String) :
    filterNameBranch s = Option.none ↔
      ¬(s = "" ∨ eqIgnoreAsciiCase s "error" = true ∨ eqIgnoreAsciiCase s "warn" = true ∨
        eqIgnoreAsciiCase s "info" = true ∨ eqIgnoreAsciiCase s "debug" = true ∨
        eqIgnoreAsciiCase s "trace" = true ∨ eqIgnoreAsciiCase s "off" = true) := by
  unfold filterNameBranch
  split_ifs with h1 h2 h3 h4 h5 h6 h7 <;> simp_all

/-- `from_str` fails exactly when both arms reject. -/
theorem from_str_eq_error (s : String) :
    LevelFilter.from_str s = .error ⟨⟩ ↔
      ((parseUsize s).bind filterOfNum = Option.none ∧
        filterNameBranch s = Option.none) := by
  rcases hnum : (parseUsize s).bind filterOfNum with _ | f
  · rcases hname : filterNameBranch s with _ | g
    · simp [LevelFilter.from_str, hnum, hname, Option.orElse]
    · simp [LevelFilter.from_str, hnum, hname, Option.orElse]
  · simp [LevelFilter.from_str, hnum, Option.orElse]

/-- C9: `LevelFilter::from_str` accepts the numerals 0 through 5 (0 giving
OFF, 5 giving TRACE), each of the six verbosity names in any ASCII case,
and the empty string (giving ERROR); it fails with a parse error on
exactly the strings that neither parse as a number up to 5 nor
case-insensitively match a name nor are empty. -/
theorem c9_level_filter_parsing :
    (LevelFilter.from_str "0" = .ok .OFF) ∧
    (LevelFilter.from_str "1" = .ok .ERROR) ∧
    (LevelFilter.from_str "2" = .ok .WARN) ∧
    (LevelFilter.from_str "3" = .ok .INFO) ∧
    (LevelFilter.from_str "4" = .ok .DEBUG) ∧
    (LevelFilter.from_str "5" = .ok .TRACE) ∧
    (LevelFilter.from_str "" = .ok .ERROR) ∧
    (∀ s, eqIgnoreAsciiCase s "error" = true → LevelFilter.from_str s = .ok .ERROR) ∧
    (∀ s, eqIgnoreAsciiCase s "warn" = true → LevelFilter.from_str s = .ok .WARN) ∧
    (∀ s, eqIgnoreAsciiCase s "info" = true → LevelFilter.from_str s = .ok .INFO) ∧
    (∀ s, eqIgnoreAsciiCase s "debug" = true → LevelFilter.from_str s = .ok .DEBUG) ∧
    (∀ s, eqIgnoreAsciiCase s "trace" = true → LevelFilter.from_str s = .ok .TRACE) ∧
    (∀ s, eqIgnoreAsciiCase s "off" = true → LevelFilter.from_str s = .ok .OFF) ∧
    (∀ s, LevelFilter.from_str s = .error ⟨⟩ ↔
      ¬((∃ n, parseUsize s = Option.some n ∧ n ≤ 5) ∨ s = "" ∨
        eqIgnoreAsciiCase s "error" = true ∨ eqIgnoreAsciiCase s "warn" = true ∨
        eqIgnoreAsciiCase s "info" = true ∨ eqIgnoreAsciiCase s "debug" = true ∨
        eqIgnoreAsciiCase s "trace" = true ∨ eqIgnoreAsciiCase s "off" = true)) := by
  refine ⟨by decide, by decide, by decide, by decide, by decide, by decide, by decide,
    ?_, ?_, ?_, ?_, ?_, ?_, ?_⟩
  · intro s h
    rw [from_str_of_name s "error" 'e' ['r', 'r', 'o', 'r'] h (by decide) (by decide)
      (by decide) (by decide)]
    decide
  · intro s h
    rw [from_str_of_name s "warn" 'w' ['a', 'r', 'n'] h (by decide) (by decide)
      (by decide) (by decide)]
    decide
  · intro s h
    rw [from_str_of_name s "info" 'i' ['n', 'f', 'o'] h (by decide) (by decide)
      (by decide) (by decide)]
    decide
  · intro s h
    rw [from_str_of_name s "debug" 'd' ['e', 'b', 'u', 'g'] h (by decide) (by decide)
      (by decide) (by decide)]
    decide
  · intro s h
    rw [from_str_of_name s "trace" 't' ['r', 'a', 'c', 'e'] h (by decide) (by decide)
      (by decide) (by decide)]
    decide
  · intro s h
    rw [from_str_of_name s "off" 'o' ['f', 'f'] h (by decide) (by decide)
      (by decide) (by decide)]
    decide
  · intro s
    rw [from_str_eq_error, bind_filterOfNum_eq_none, filterNameBranch_eq_none]
    exact not_or.symm
